import Mathlib

/-!
Verification development for the chrome-for-claude element interaction engine.

The definitions below are a shallow embedding of the code in
src/server/chrome-controller.js and src/server/tools/elements.js.
The remote page DOM, the debugging-protocol geometry replies and the
availability of optional protocol domains are modelled as explicit
environment parameters; the control flow of each method is translated
branch by branch from the source.
-/

/-! ## String helpers

JavaScript String.prototype.includes, startsWith, toLowerCase and
split are modelled on lists of characters.  -/

def strHeadMatch : List Char → List Char → Bool
  | [], _ => true
  | _ :: _, [] => false
  | p :: ps, s :: ss => p == s && strHeadMatch ps ss

def strFindSub (pat : List Char) : List Char → Bool
  | [] => strHeadMatch pat []
  | c :: cs => strHeadMatch pat (c :: cs) || strFindSub pat cs

def strContains (s pat : String) : Bool :=
  strFindSub pat.toList s.toList

def strStarts (s pat : String) : Bool :=
  strHeadMatch pat.toList s.toList

def strLower (s : String) : String :=
  String.mk (s.toList.map Char.toLower)

/-- JavaScript className.split of a space, first entry: the characters of the
class attribute up to the first space. -/
def firstClassToken (c : String) : String :=
  String.mk (c.toList.takeWhile (fun ch => ch != ' '))

/-! ## Session Gateway: withTab (chrome-controller.js lines 278 to 308)

The method resolves the tab id against the live target list, opens one
protocol connection, enables the Page and Runtime domains (a DOM-domain
enable failure is caught and only logged), runs the callback and closes
the connection in a finally block.  The environment carries the outcome
of each fallible step; the returned trace records every connection open
and close that the run performs. -/

structure Target where
  tid : String
deriving DecidableEq

inductive ConnEvent
  | connOpen
  | connClose
deriving DecidableEq

structure TabEnv (A : Type) where
  targets : List Target
  connectOk : Bool
  pageEnable : Except String Unit
  runtimeEnable : Except String Unit
  domEnable : Except String Unit
  callbackResult : Except String A

def withTab {A : Type} (env : TabEnv A) (tabId : String) :
    Except String A × List ConnEvent :=
  match env.targets.find? (fun t => t.tid == tabId) with
  | none => (.error ("Tab with ID " ++ tabId ++ " not found"), [])
  | some _ =>
    if env.connectOk then
      let body : Except String A :=
        match env.pageEnable with
        | .error e => .error e
        | .ok _ =>
          match env.runtimeEnable with
          | .error e => .error e
          | .ok _ => env.callbackResult
      (body, [ConnEvent.connOpen, ConnEvent.connClose])
    else
      (.error "Failed to connect to tab", [])

/-! ## Error taxonomy

Each constructor stands for one of the Error messages thrown by the
controller; errMessage reproduces the message text (quote characters of
the original messages are dropped). -/

inductive CtrlError
  | tabNotFound (tabId : String)
  | elementNotFound (sel : String)
  | invalidSelector (msg : String)
  | formNotFound (sel : String)
deriving DecidableEq

def errMessage : CtrlError → String
  | .tabNotFound t => "Tab with ID " ++ t ++ " not found"
  | .elementNotFound s => "Element " ++ s ++ " not found or not visible within timeout"
  | .invalidSelector m => "Invalid selector: " ++ m
  | .formNotFound s => "Form not found with selector: " ++ s

/-! ## DOM model

An element carries the attributes and computed styles that the engine
reads.  A Dom maps a selector string to the first matching element, as
document.querySelector does; the page structure also carries the node
lists that the text-content matching script enumerates. -/

structure Elem where
  tag : String
  id : String
  name : String
  className : String
  etype : String
  value : String
  placeholder : String
  ariaLabel : String
  title : String
  textContent : String
  innerText : String
  width : Nat
  height : Nat
  display : String
  visibility : String
  opacity : String
deriving DecidableEq

def Dom : Type := String → Option Elem

/-- Visibility check used by checkElementExists, waitForElement and
elementExists: non-zero rendered size and styles not hidden. -/
def isVisible (e : Elem) : Bool :=
  decide (0 < e.width) && decide (0 < e.height) &&
  (e.display != "none") && (e.visibility != "hidden") && (e.opacity != "0")

/-- checkElementExists (chrome-controller.js lines 589 to 616): true only
when the selector matches an element that is also visible. -/
def checkElementExists (dom : Dom) (sel : String) : Bool :=
  match dom sel with
  | none => false
  | some e => isVisible e

structure Page where
  dom : Dom
  buttons : List Elem
  links : List Elem
  inputs : List Elem

/-! ## Selector Resolver (chrome-controller.js lines 9 to 80 and 412 to 586) -/

inductive ElemKind
  | submit
  | search
  | login
  | password
  | button
  | link
  | field
deriving DecidableEq

/-- SELECTOR_PATTERNS table, copied in order from the source. -/
def selectorPatterns : ElemKind → List String
  | .submit =>
    ["button[type=\"submit\"]",
     "input[type=\"submit\"]",
     "button[value*=\"submit\" i]",
     "input[value*=\"submit\" i]",
     "button[innerText*=\"submit\" i]",
     "button[textContent*=\"submit\" i]",
     "*[role=\"button\"][aria-label*=\"submit\" i]",
     "button.submit",
     "button.btn-submit",
     "button.submit-btn",
     "button#submit",
     "form button:last-of-type",
     "form button.btn-primary",
     "form button.btn",
     "form button"]
  | .search =>
    ["input[type=\"search\"]",
     "input[name*=\"search\" i]",
     "input[placeholder*=\"search\" i]",
     "input[aria-label*=\"search\" i]",
     "*[role=\"searchbox\"]",
     "input.search",
     "input#search",
     "form input[type=\"text\"]:first-of-type"]
  | .login =>
    ["input[type=\"email\"]",
     "input[name*=\"email\" i]",
     "input[name*=\"user\" i]",
     "input[name*=\"login\" i]",
     "input[placeholder*=\"email\" i]",
     "input[placeholder*=\"username\" i]",
     "input[aria-label*=\"email\" i]",
     "input#email",
     "input#username",
     "input.email",
     "input.username"]
  | .password =>
    ["input[type=\"password\"]",
     "input[name*=\"pass\" i]",
     "input[placeholder*=\"password\" i]",
     "input[aria-label*=\"password\" i]",
     "input#password",
     "input.password"]
  | .button =>
    ["button",
     "a.btn",
     "a.button",
     "*[role=\"button\"]",
     "input[type=\"button\"]"]
  | .link =>
    ["a[href]",
     "*[role=\"link\"]"]
  | .field =>
    ["input[type=\"text\"]",
     "input[type=\"email\"]",
     "input[type=\"tel\"]",
     "input[type=\"url\"]",
     "input:not([type=\"hidden\"]):not([type=\"submit\"]):not([type=\"button\"])",
     "textarea"]

/-- Keyword classification of the lower-cased hint
(chrome-controller.js lines 436 to 457), first match wins. -/
def classifyHint (hl : String) : Option ElemKind :=
  if strContains hl "submit" || strContains hl "send" || strContains hl "confirm" then
    some .submit
  else if strContains hl "search" || strContains hl "find" then
    some .search
  else if strContains hl "login" || strContains hl "email" || strContains hl "username" then
    some .login
  else if strContains hl "password" || strContains hl "pass" then
    some .password
  else if strContains hl "button" || strContains hl "btn" || strContains hl "click" then
    some .button
  else if strContains hl "link" then
    some .link
  else if strContains hl "input" || strContains hl "field" || strContains hl "text" then
    some .field
  else
    none

/-- Selector built by the text-matching script for a button hit
(chrome-controller.js lines 476 to 478): id, else first class token,
else tag name.  The name attribute is never consulted. -/
def buttonSelector (e : Elem) : String :=
  if e.id != "" then "#" ++ e.id
  else if e.className != "" then "." ++ firstClassToken e.className
  else e.tag

/-- Selector built by the text-matching script for a link hit
(chrome-controller.js lines 491 to 493). -/
def linkSelector (e : Elem) : String :=
  if e.id != "" then "#" ++ e.id
  else if e.className != "" then "." ++ firstClassToken e.className
  else "a"

/-- Selector built by the text-matching script for an input hit
(chrome-controller.js lines 508 to 511): id, else a name-attribute
selector, else first class token, else an input type selector. -/
def inputBestSelector (e : Elem) : String :=
  if e.id != "" then "#" ++ e.id
  else if e.name != "" then "input[name=\"" ++ e.name ++ "\"]"
  else if e.className != "" then "." ++ firstClassToken e.className
  else "input[type=\"" ++ (if e.etype != "" then e.etype else "text") ++ "\"]"

def textMatchesButton (st : String) (e : Elem) : Bool :=
  strContains (strLower e.textContent) st ||
  strContains (strLower e.innerText) st ||
  strContains (strLower e.value) st

def textMatchesLink (st : String) (e : Elem) : Bool :=
  strContains (strLower e.textContent) st

def textMatchesInput (st : String) (e : Elem) : Bool :=
  strContains (strLower e.placeholder) st ||
  strContains (strLower e.ariaLabel) st ||
  strContains (strLower e.title) st

/-- In-page text-content matching script (chrome-controller.js lines 463
to 519): first matching button, then first matching link, then first
matching input, each mapped to its best-available selector. -/
def textContentMatch (p : Page) (st : String) : Option String :=
  match p.buttons.find? (textMatchesButton st) with
  | some b => some (buttonSelector b)
  | none =>
    match p.links.find? (textMatchesLink st) with
    | some l => some (linkSelector l)
    | none =>
      match p.inputs.find? (textMatchesInput st) with
      | some i => some (inputBestSelector i)
      | none => none

structure Discovery where
  selector : String
  confidence : String
deriving DecidableEq

/-- Syntactic gate used inside discoverBestSelector (line 416): the hint
is tried directly as a selector when it contains a dot, a hash, an
opening square bracket or a colon. -/
def looksLikeSelectorDiscover (s : String) : Bool :=
  strContains s "." || strContains s "#" || strContains s "[" || strContains s ":"

/-- discoverBestSelector (chrome-controller.js lines 412 to 586).  The
candidate lists are accumulated in source order and the first entry is
returned: the direct try of a selector-looking hint, then (only when no
keyword category matched) the text-content script match followed by the
attribute fallback selectors, then the first matching category pattern. -/
def discoverBestSelector (p : Page) (hint : String) : Option Discovery :=
  let exactResults : List Discovery :=
    if hint != "" && looksLikeSelectorDiscover hint && checkElementExists p.dom hint then
      [⟨hint, "exact"⟩]
    else []
  let category := classifyHint (strLower hint)
  let textResults : List Discovery :=
    match category with
    | some _ => []
    | none =>
      if hint != "" then
        let scriptRes : List Discovery :=
          match textContentMatch p (strLower hint) with
          | some sel => [⟨sel, "text-match"⟩]
          | none => []
        let attrSelectors : List String :=
          ["*[aria-label*=\"" ++ hint ++ "\" i]",
           "*[title*=\"" ++ hint ++ "\" i]",
           "input[placeholder*=\"" ++ hint ++ "\" i]"]
        let attrRes : List Discovery :=
          match attrSelectors.find? (checkElementExists p.dom) with
          | some sel => [⟨sel, "text-match"⟩]
          | none => []
        scriptRes ++ attrRes
      else []
  let patternResults : List Discovery :=
    match category with
    | some k =>
      match (selectorPatterns k).find? (checkElementExists p.dom) with
      | some sel => [⟨sel, "pattern-match"⟩]
      | none => []
    | none => []
  (exactResults ++ textResults ++ patternResults).head?

/-- Syntactic gate used by clickElement (lines 844 to 850) and typeText
(lines 948 to 954) to decide whether to skip smart discovery: the hint
starts with a dot or a hash, or contains an opening square bracket, a
greater-than sign, or a space followed by a dot. -/
def looksLikeSelectorClick (s : String) : Bool :=
  s != "" &&
  (strStarts s "." || strStarts s "#" ||
   strContains s "[" || strContains s ">" || strContains s " .")

/-- Selector resolution step shared by clickElement and typeText (lines
843 to 862): a selector-looking hint is used directly; otherwise smart
discovery is attempted and its selector adopted, falling back to the
literal hint when discovery returns nothing. -/
def resolveClickSelector (p : Page) (hint : String) : String × Option Discovery :=
  if looksLikeSelectorClick hint then (hint, none)
  else
    match discoverBestSelector p hint with
    | some d => (d.selector, some d)
    | none => (hint, none)

/-! ## Visibility Wait Engine (chrome-controller.js lines 727 to 813)

The in-page promise checks the selector immediately, subscribes a
MutationObserver, and at the timeout resolves with the snapshot when the
element exists (visible or not) and rejects when it does not.  The
claims under verification fix the page for the whole timeout window, so
the page is modelled as a single static Dom: the observer callback then
never observes a change of outcome and the behaviour is decided by the
immediate check and the timeout fallback alone. -/

structure Snapshot where
  found : Bool
  visible : Bool
deriving DecidableEq

inductive WaitOutcome
  | resolvedImmediately (s : Snapshot)
  | resolvedAtTimeout (s : Snapshot)
  | rejectedAtTimeout
deriving DecidableEq

def inPageWait (dom : Dom) (sel : String) : WaitOutcome :=
  match dom sel with
  | some e =>
    if isVisible e then .resolvedImmediately ⟨true, true⟩
    else .resolvedAtTimeout ⟨true, false⟩
  | none => .rejectedAtTimeout

/-- waitForElement wrapper: a resolved snapshot with a true exists flag is
returned; a rejected promise surfaces through the evaluate result as a
value without the exists flag, so the wrapper throws the not-found
error either way. -/
def waitForElement (dom : Dom) (sel : String) : Except CtrlError Snapshot :=
  match inPageWait dom sel with
  | .resolvedImmediately s =>
    if s.found then .ok s else .error (.elementNotFound sel)
  | .resolvedAtTimeout s =>
    if s.found then .ok s else .error (.elementNotFound sel)
  | .rejectedAtTimeout => .error (.elementNotFound sel)

/-- validateSelector (chrome-controller.js lines 815 to 836).  The
querySelector probe inside it always throws (it runs against a null
tab), so the effective checks are: non-empty string, no injection
markers, length at most 1000. -/
def validateSelector (sel : String) : Except CtrlError Unit :=
  if sel == "" then
    .error (.invalidSelector "must be a non-empty string")
  else if strContains sel "javascript:" || strContains sel "<script" then
    .error (.invalidSelector "potential security risk detected")
  else if 1000 < sel.length then
    .error (.invalidSelector "too long")
  else
    .ok ()

/-! ## Coordinate Resolver (chrome-controller.js lines 619 to 724)

A quad is eight numbers, corner by corner.  The environment carries the
protocol replies: whether the DOM domain calls succeed, whether the DOM
querySelector found a node, the content quads, the box-model content
quad, and the in-page bounding rectangle. -/

structure Quad where
  x1 : ℚ
  y1 : ℚ
  x2 : ℚ
  y2 : ℚ
  x3 : ℚ
  y3 : ℚ
  x4 : ℚ
  y4 : ℚ
deriving DecidableEq

structure Rect where
  left : ℚ
  top : ℚ
  width : ℚ
  height : ℚ
deriving DecidableEq

/-- JavaScript Math.round: floor of the argument plus one half. -/
def jsRound (q : ℚ) : ℤ := ⌊q + 1 / 2⌋

structure CoordResult where
  ok : Bool
  coords : Option (ℤ × ℤ)
  method : String
deriving DecidableEq

structure CoordEnv where
  domAvailable : Bool
  nodeFound : Bool
  quads : List Quad
  boxContent : Option Quad
  rect : Option Rect

/-- Method 3 (lines 682 to 717): in-page bounding rectangle, rejected
when missing or of zero area. -/
def coordMethod3 (env : CoordEnv) : CoordResult :=
  match env.rect with
  | some r =>
    if decide (0 < r.width) && decide (0 < r.height) then
      ⟨true,
       some (jsRound (r.left + r.width / 2), jsRound (r.top + r.height / 2)),
       "JavaScript_getBoundingClientRect"⟩
    else ⟨false, none, "all_methods_failed"⟩
  | none => ⟨false, none, "all_methods_failed"⟩

/-- Method 2 (lines 655 to 680): box-model content quad, centred by the
same two-corner midpoint as method 1. -/
def coordMethod2 (env : CoordEnv) : CoordResult :=
  if env.domAvailable && env.nodeFound then
    match env.boxContent with
    | some c =>
      ⟨true,
       some (jsRound ((c.x1 + c.x3) / 2), jsRound ((c.y1 + c.y3) / 2)),
       "DOM.getBoxModel"⟩
    | none => coordMethod3 env
  else coordMethod3 env

/-- getElementCoordinates (lines 619 to 724).  Method 1 takes the first
content quad and returns the rounded midpoint of its first and third
corners: quad index 0 with index 4, and index 1 with index 5. -/
def getElementCoordinates (env : CoordEnv) : CoordResult :=
  if env.domAvailable && env.nodeFound then
    match env.quads with
    | q :: _ =>
      ⟨true,
       some (jsRound ((q.x1 + q.x3) / 2), jsRound ((q.y1 + q.y3) / 2)),
       "DOM.getContentQuads"⟩
    | [] => coordMethod2 env
  else coordMethod2 env

/-! ## Interaction Executor: clickElement (chrome-controller.js lines 838
to 936) -/

structure ClickEnv where
  page : Page
  coord : CoordEnv
  inputApiAvailable : Bool
  dispatchOk : Bool

/-- Result object of clickElement.  The source result carries exactly the
fields success, selector, originalHint, discovery, coordinates and
method; no field records the visibility of the element. -/
structure ClickResult where
  success : Bool
  selector : String
  originalHint : Option String
  discovery : Option Discovery
  coordinates : Option (ℤ × ℤ)
  method : String
deriving DecidableEq

def clickElement (env : ClickEnv) (hint : String) : Except CtrlError ClickResult :=
  let resolved := resolveClickSelector env.page hint
  let sel := resolved.1
  let disc := resolved.2
  match validateSelector sel with
  | .error e => .error e
  | .ok _ =>
    match waitForElement env.page.dom sel with
    | .error e => .error e
    | .ok _ =>
      let cr := getElementCoordinates env.coord
      if cr.ok && cr.coords.isSome && env.inputApiAvailable && env.dispatchOk then
        .ok ⟨true, sel, (if hint != sel then some hint else none), disc,
             cr.coords, "CDP_Input_API_via_" ++ cr.method⟩
      else
        .ok ⟨true, sel, (if hint != sel then some hint else none), disc,
             cr.coords, "JavaScript_fallback_from_" ++ cr.method⟩

/-- Tool-boundary wrapper for click_element
(tools/elements.js lines 177 to 203): every thrown error is caught and
converted into a structured failure object. -/
structure ToolResult where
  success : Bool
  err : Option CtrlError
deriving DecidableEq

def handleClickTool (env : ClickEnv) (hint : String) : ToolResult :=
  match clickElement env hint with
  | .ok _ => ⟨true, none⟩
  | .error e => ⟨false, some e⟩

/-! ## Existence check: elementExists (chrome-controller.js lines 1162 to
1227) -/

structure ExistsResult where
  success : Bool
  found : Bool
  visible : Bool
deriving DecidableEq

/-- elementExists (chrome-controller.js lines 1162 to 1227).  When
waitForElement succeeds, the result is reported from its snapshot.  The
catch branch re-evaluates an existence script, but that script uses
top-level return statements, which are a syntax error inside a
Runtime.evaluate expression: the evaluation yields no value, the null
check fires, and the branch always returns the failure object with
success false and the text Failed to evaluate element existence; its
exists and visible fields are absent, modelled as false. -/
def elementExists (dom : Dom) (sel : String) : Except CtrlError ExistsResult :=
  match validateSelector sel with
  | .error e => .error e
  | .ok _ =>
    match waitForElement dom sel with
    | .ok info => .ok ⟨true, true, info.visible⟩
    | .error _ => .ok ⟨false, false, false⟩

/-! ## Text entry: typeText value evolution (chrome-controller.js lines
938 to 1070)

Only the final value of the target input is modelled.  On the protocol
path the focusing click leaves the caret at some position inside the
(possibly cleared) value and Input.insertText inserts the text there.
On the JavaScript fallback path the script performs the optional
clearing assignment and then assigns the typed text to the value
property outright, so the cleared-or-original intermediate value is
discarded and the clear option has no effect on the outcome. -/

def clearedValue (clear : Bool) (orig : String) : String :=
  if clear then "" else orig

/-- Value after the protocol insert-text path (lines 999 to 1013). -/
def typeInsertTextValue (clear : Bool) (caret : Nat) (orig text : String) : String :=
  let base := clearedValue clear orig
  String.mk (base.toList.take caret ++ text.toList ++ base.toList.drop caret)

/-- Value after the JavaScript fallback script (lines 1030 to 1047): the
script body is the clearing assignment followed by the unconditional
assignment of the typed text. -/
def typeFallbackValue (clear : Bool) (orig text : String) : String :=
  (fun _mid => text) (clearedValue clear orig)

/-- Final value of the input after typeText, by path. -/
def typeTextFinalValue (inputApi : Bool) (caret : Nat) (clear : Bool)
    (orig text : String) : String :=
  if inputApi then typeInsertTextValue clear caret orig text
  else typeFallbackValue clear orig text

/-! ## Form Inspector (chrome-controller.js lines 1104 to 1160 and
tools/elements.js lines 134 to 175) -/

structure FormInfo where
  formId : String
  formClass : String
  formAction : String
  elements : List Elem

/-- Per-element record built by the in-page analysis script (lines 1127
to 1143); its visibility check reads only the rendered size. -/
structure FormElemReport where
  tagName : String
  etype : String
  name : String
  id : String
  className : String
  value : String
  placeholder : String
  textContent : String
  ariaLabel : String
  visible : Bool
deriving DecidableEq

def formElemReport (e : Elem) : FormElemReport :=
  ⟨e.tag, e.etype, e.name, e.id, e.className, e.value, e.placeholder,
   e.textContent, e.ariaLabel, decide (0 < e.width) && decide (0 < e.height)⟩

structure FormAnalysis where
  formId : String
  formClass : String
  formAction : String
  elements : List FormElemReport
deriving DecidableEq

def Forms : Type := String → Option FormInfo

/-- analyzeFormInternal (lines 1116 to 1160): the in-page script returns
null when the form selector matches nothing, and the method hands that
null back to its caller without throwing. -/
def analyzeFormInternal (forms : Forms) (sel : String) : Option FormAnalysis :=
  match forms sel with
  | none => none
  | some f => some ⟨f.formId, f.formClass, f.formAction, f.elements.map formElemReport⟩

/-- analyzeForm (lines 1104 to 1113): the public wrapper converts the
null of the internal method into a thrown error. -/
def analyzeForm (forms : Forms) (sel : String) : Except CtrlError FormAnalysis :=
  match analyzeFormInternal forms sel with
  | none => .error (.formNotFound sel)
  | some d => .ok d

/-- Suggested selector computed by the analyze_form tool handler
(tools/elements.js lines 161 to 164) for each reported element. -/
def formSuggestedSelector (r : FormElemReport) : String :=
  if r.id != "" then "#" ++ r.id
  else if r.name != "" then "[name=\"" ++ r.name ++ "\"]"
  else if r.className != "" then "." ++ firstClassToken r.className
  else r.tagName

structure FormToolResult where
  success : Bool
  err : Option CtrlError
  selectors : List String
deriving DecidableEq

/-- analyze_form tool handler (tools/elements.js lines 134 to 175): a
thrown error is caught and converted into a structured failure result. -/
def handleAnalyzeFormTool (forms : Forms) (sel : String) : FormToolResult :=
  match analyzeForm forms sel with
  | .ok d => ⟨true, none, d.elements.map formSuggestedSelector⟩
  | .error e => ⟨false, some e, []⟩

/-! ## Spec-side selector priority

Modelled from the spec: the priority rule of section 4.2 step 3 and
section 4.6, stated as a predicate on the element and the selector the
code produced for it, for comparison against the source definitions. -/

def usesIdSelector (i : String) (sel : String) : Bool :=
  sel == "#" ++ i

def usesNameSelector (n : String) (sel : String) : Bool :=
  sel == "[name=\"" ++ n ++ "\"]" || sel == "input[name=\"" ++ n ++ "\"]"

def usesClassSelector (c : String) (sel : String) : Bool :=
  sel == "." ++ firstClassToken c

def usesTagSelector (t : String) (sel : String) : Bool :=
  sel == t

/-- Modelled from the spec: the selector follows the priority id, then
name attribute, then first class token, then tag name. -/
def specFollowsPriority (i n c t : String) (sel : String) : Bool :=
  if i != "" then usesIdSelector i sel
  else if n != "" then usesNameSelector n sel
  else if c != "" then usesClassSelector c sel
  else usesTagSelector t sel

/-! ## Concrete fixtures used by the theorems below -/

/-- An element that exists but is styled display none. -/
def hiddenDiv : Elem :=
  ⟨"div", "x", "", "", "", "", "", "", "", "", "", 5, 5, "none", "visible", "1"⟩

def domHidden : Dom := fun s => if s == "#x" then some hiddenDiv else none

def pageHidden : Page := ⟨domHidden, [], [], []⟩

/-- A visible button reachable by the id selector. -/
def visibleBtn : Elem :=
  ⟨"button", "go", "", "", "", "", "", "", "", "Go", "Go", 10, 10, "block", "visible", "1"⟩

def domVisible : Dom := fun s => if s == "#go" then some visibleBtn else none

def pageVisible : Page := ⟨domVisible, [], [], []⟩

/-- A visible element matched by the compound selector div.x, which the
click-side gate does not classify as a selector. -/
def divDotX : Elem :=
  ⟨"div", "", "", "x", "", "", "", "", "", "", "", 10, 10, "block", "visible", "1"⟩

def domDivDotX : Dom := fun s => if s == "div.x" then some divDotX else none

def pageDivDotX : Page := ⟨domDivDotX, [], [], []⟩

/-- A second page keyed by another hint on which the two syntactic
predicates disagree: a.y b contains a dot but neither starts with one
nor contains a bracket, a greater-than sign or a space-dot. -/
def domAyB : Dom := fun s => if s == "a.y b" then some divDotX else none

def pageAyB : Page := ⟨domAyB, [], [], []⟩

/-- A button with a name attribute but neither id nor class, found by its
text content. -/
def goButton : Elem :=
  ⟨"button", "", "go", "", "", "", "", "", "", "Go", "Go", 10, 10, "block", "visible", "1"⟩

def pageGoButton : Page := ⟨(fun _ => none), [goButton], [], []⟩

/-- A button with no id, name or class at all. -/
def plainButton : Elem :=
  ⟨"button", "", "", "", "", "", "", "", "", "Go", "Go", 10, 10, "block", "visible", "1"⟩

def emptyDom : Dom := fun _ => none

def emptyPage : Page := ⟨emptyDom, [], [], []⟩

def coordEnvNone : CoordEnv := ⟨false, false, [], none, none⟩

def clickEnvEmpty : ClickEnv := ⟨emptyPage, coordEnvNone, false, false⟩

def clickEnvHidden : ClickEnv := ⟨pageHidden, coordEnvNone, false, false⟩

/-- A visible submit button reachable only through the first entry of the
submit pattern table; the compound selector button.submit matches
nothing on this page. -/
def submitBtn : Elem :=
  ⟨"button", "", "", "", "submit", "", "", "", "", "Go", "Go", 10, 10,
   "block", "visible", "1"⟩

def domSubmitOnly : Dom :=
  fun s => if s == "button[type=\"submit\"]" then some submitBtn else none

def pageSubmitOnly : Page := ⟨domSubmitOnly, [], [], []⟩

def clickEnvSubmit : ClickEnv := ⟨pageSubmitOnly, coordEnvNone, false, false⟩

/-- A non-parallelogram content quad: corner x coordinates 0, 10, 2, 4. -/
def quadSkew : Quad := ⟨0, 0, 10, 0, 2, 8, 4, 8⟩

def coordEnvSkew : CoordEnv := ⟨true, true, [quadSkew], none, none⟩

/-- A rectangular content quad, for which the diagonal midpoint and the
four-corner average agree. -/
def quadPar : Quad := ⟨0, 0, 10, 0, 10, 8, 0, 8⟩

def coordEnvPar : CoordEnv := ⟨true, true, [quadPar], none, none⟩

def noForms : Forms := fun _ => none

/-! ## Shared helper lemmas -/

theorem waitForElement_none (dom : Dom) (sel : String) (h : dom sel = none) :
    waitForElement dom sel = .error (.elementNotFound sel) := by
  unfold waitForElement inPageWait
  rw [h]

theorem inPageWait_hidden (dom : Dom) (sel : String) (e : Elem)
    (hdom : dom sel = some e) (hvis : isVisible e = false) :
    inPageWait dom sel = .resolvedAtTimeout ⟨true, false⟩ := by
  unfold inPageWait
  rw [hdom]
  simp [hvis]

theorem waitForElement_hidden (dom : Dom) (sel : String) (e : Elem)
    (hdom : dom sel = some e) (hvis : isVisible e = false) :
    waitForElement dom sel = .ok ⟨true, false⟩ := by
  unfold waitForElement
  rw [inPageWait_hidden dom sel e hdom hvis]
  rfl

theorem discover_exact_aux (p : Page) (hint : String)
    (hne : (hint != "") = true)
    (hlooks : looksLikeSelectorDiscover hint = true)
    (hcheck : checkElementExists p.dom hint = true) :
    discoverBestSelector p hint = some ⟨hint, "exact"⟩ := by
  unfold discoverBestSelector
  rw [hne, hlooks, hcheck]
  simp

/-! ## Claim theorems -/

/-- Claim C1: for every tab id and every callback outcome, when withTab
opens a protocol connection to the resolved target it closes that
connection before returning or propagating an error, on every exit path
including a throwing callback, and it opens at most one connection per
call: the connection trace of a run holds at most one open event and
exactly as many close events as open events. -/
theorem withTab_connection_balanced {A : Type} (env : TabEnv A) (tabId : String) :
    (withTab env tabId).2.count ConnEvent.connOpen ≤ 1 ∧
    (withTab env tabId).2.count ConnEvent.connClose =
      (withTab env tabId).2.count ConnEvent.connOpen := by
  have htr : (withTab env tabId).2 = [] ∨
      (withTab env tabId).2 = [ConnEvent.connOpen, ConnEvent.connClose] := by
    unfold withTab
    split
    · exact Or.inl rfl
    · split
      · exact Or.inr rfl
      · exact Or.inl rfl
  rcases htr with h | h <;> rw [h] <;> exact ⟨by decide, by decide⟩

/-- Counterexample for claim C2: button.submit is a CSS-looking selector
(it contains a dot) that matches zero DOM nodes for the whole timeout
window, yet the click tool reports success with no error: clickElement
does not classify it as a selector by its own gate, smart discovery
routes the word submit to the submit pattern table, the table finds the
visible type-submit button elsewhere on the page, and the click lands
on that other element. -/
theorem click_zero_match_claim_cex :
    domSubmitOnly "button.submit" = none ∧
    looksLikeSelectorDiscover "button.submit" = true ∧
    looksLikeSelectorClick "button.submit" = false ∧
    discoverBestSelector pageSubmitOnly "button.submit" =
      some ⟨"button[type=\"submit\"]", "pattern-match"⟩ ∧
    handleClickTool clickEnvSubmit "button.submit" = ⟨true, none⟩ := by
  exact ⟨rfl, by decide, by decide, rfl, rfl⟩

/-- Claim C2 as amended: whenever the click call uses the given selector
itself (because the hint passes the clickElement selector gate, or
smart discovery resolves nothing), a selector matching zero DOM nodes
for the whole timeout window never reports success: the tool result has
success false, and whenever the selector passes validation the recorded
error is the element-not-found error.  When smart discovery substitutes
a different selector from its tables, the click may act on that other
element and report success even though the given selector matches
nothing. -/
theorem click_zero_match_returns_failure (env : ClickEnv) (hint : String)
    (hres : (resolveClickSelector env.page hint).1 = hint)
    (hdom : env.page.dom hint = none) :
    (handleClickTool env hint).success = false ∧
    (validateSelector hint = .ok () →
      (handleClickTool env hint).err = some (.elementNotFound hint)) := by
  have hwait := waitForElement_none env.page.dom hint hdom
  cases hv : validateSelector hint with
  | error e =>
    have hclick : clickElement env hint = .error e := by
      unfold clickElement
      simp only [hres]
      simp [hv]
    constructor
    · unfold handleClickTool
      rw [hclick]
    · intro hok
      injection hok
  | ok u =>
    have hclick : clickElement env hint = .error (.elementNotFound hint) := by
      unfold clickElement
      simp only [hres]
      simp [hv, hwait]
    constructor
    · unfold handleClickTool
      rw [hclick]
    · intro _
      unfold handleClickTool
      rw [hclick]

theorem click_zero_match_returns_failure_witness :
    (handleClickTool clickEnvEmpty "#missing").success = false ∧
    (handleClickTool clickEnvEmpty "#missing").err =
      some (.elementNotFound "#missing") := by
  have h := click_zero_match_returns_failure clickEnvEmpty "#missing"
    rfl rfl
  exact ⟨h.1, h.2 rfl⟩

/-- Claim C3: when the selector matches a node that exists but stays
invisible for the whole timeout window, the visibility wait resolves at
the timeout with an exists-true visible-false snapshot instead of
throwing, and the existence check returns exists true, visible false. -/
theorem wait_hidden_resolves_exists_true (dom : Dom) (sel : String) (e : Elem)
    (hdom : dom sel = some e) (hvis : isVisible e = false)
    (hval : validateSelector sel = .ok ()) :
    inPageWait dom sel = .resolvedAtTimeout ⟨true, false⟩ ∧
    waitForElement dom sel = .ok ⟨true, false⟩ ∧
    elementExists dom sel = .ok ⟨true, true, false⟩ := by
  have h1 := inPageWait_hidden dom sel e hdom hvis
  have h2 := waitForElement_hidden dom sel e hdom hvis
  refine ⟨h1, h2, ?_⟩
  unfold elementExists
  rw [hval, h2]

theorem wait_hidden_resolves_exists_true_witness :
    elementExists domHidden "#x" = .ok ⟨true, true, false⟩ :=
  (wait_hidden_resolves_exists_true domHidden "#x" hiddenDiv rfl
    (by decide) rfl).2.2

/-- Claim C10: when the selector matches a node that exists but never
becomes visible during the whole timeout window, clickElement does not
fail: the visibility wait resolves with visible false, the click
proceeds through coordinate resolution and event dispatch, and the
returned result reports success true; the ClickResult structure carries
only success, selector, originalHint, discovery, coordinates and method
fields, so the hidden state of the element is not recorded. -/
theorem click_hidden_element_reports_success (env : ClickEnv) (hint : String)
    (e : Elem)
    (hsel : looksLikeSelectorClick hint = true)
    (hval : validateSelector hint = .ok ())
    (hdom : env.page.dom hint = some e)
    (hvis : isVisible e = false) :
    waitForElement env.page.dom hint = .ok ⟨true, false⟩ ∧
    (∃ r : ClickResult, clickElement env hint = .ok r ∧ r.success = true) ∧
    (handleClickTool env hint).success = true := by
  have hres : resolveClickSelector env.page hint = (hint, none) := by
    unfold resolveClickSelector
    simp [hsel]
  have hwait := waitForElement_hidden env.page.dom hint e hdom hvis
  have hclick : ∃ r : ClickResult, clickElement env hint = .ok r ∧
      r.success = true := by
    unfold clickElement
    rw [hres]
    simp only [hval, hwait]
    split
    · exact ⟨_, rfl, rfl⟩
    · exact ⟨_, rfl, rfl⟩
  refine ⟨hwait, hclick, ?_⟩
  obtain ⟨r, hr, _⟩ := hclick
  unfold handleClickTool
  rw [hr]

theorem click_hidden_element_reports_success_witness :
    (handleClickTool clickEnvHidden "#x").success = true :=
  (click_hidden_element_reports_success clickEnvHidden "#x" hiddenDiv
    (by decide) rfl rfl (by decide)).2.2

/-- Counterexample for claim C4: the hint matches an existing node, yet
discovery does not return it as exact, because checkElementExists also
requires visibility. -/
theorem discover_exact_requires_visibility_cex :
    pageHidden.dom "#x" = some hiddenDiv ∧
    isVisible hiddenDiv = false ∧
    looksLikeSelectorDiscover "#x" = true ∧
    discoverBestSelector pageHidden "#x" = none := by
  refine ⟨rfl, by decide, by decide, ?_⟩
  rfl

/-- Claim C4 as amended: for every hint that is syntactically
selector-like and matches an existing node that is also visible at
resolution time, discoverBestSelector returns the hint unchanged with
confidence exact. -/
theorem discover_exact_visible_node (p : Page) (hint : String)
    (hne : (hint != "") = true)
    (hlooks : looksLikeSelectorDiscover hint = true)
    (hcheck : checkElementExists p.dom hint = true) :
    discoverBestSelector p hint = some ⟨hint, "exact"⟩ :=
  discover_exact_aux p hint hne hlooks hcheck

theorem discover_exact_visible_node_witness :
    discoverBestSelector pageVisible "#go" = some ⟨"#go", "exact"⟩ :=
  discover_exact_visible_node pageVisible "#go" (by decide) (by decide)
    (by decide)

/-- Counterexample for claim C5: the hint div.x contains a dot, so the
claimed single predicate classifies it as CSS-looking, yet clickElement
classifies it with a different predicate as not selector-like and
invokes smart discovery on it, which classifies it a second time and
returns it as an exact selector. -/
theorem classifier_two_predicates_cex :
    looksLikeSelectorDiscover "div.x" = true ∧
    looksLikeSelectorClick "div.x" = false ∧
    resolveClickSelector pageDivDotX "div.x" =
      ("div.x", some ⟨"div.x", "exact"⟩) := by
  refine ⟨by decide, by decide, ?_⟩
  rfl

/-- Claim C5 as amended: two distinct syntactic predicates are used.
discoverBestSelector tries the hint directly iff it contains a dot, a
hash, a bracket or a colon; clickElement and typeText skip smart
discovery iff the hint starts with a dot or a hash or contains a
bracket, a greater-than sign or a space-dot; for a hint on which the
two predicates disagree, smart discovery runs and classifies the hint
again. -/
theorem classifier_two_predicates (p : Page) (hint : String) :
    (looksLikeSelectorClick hint = true →
      resolveClickSelector p hint = (hint, none)) ∧
    (looksLikeSelectorClick hint = false →
      looksLikeSelectorDiscover hint = true →
      (hint != "") = true →
      checkElementExists p.dom hint = true →
      resolveClickSelector p hint = (hint, some ⟨hint, "exact"⟩)) := by
  constructor
  · intro h
    unfold resolveClickSelector
    simp [h]
  · intro h1 h2 h3 h4
    unfold resolveClickSelector
    rw [discover_exact_aux p hint h3 h2 h4]
    simp [h1]

theorem classifier_two_predicates_witness :
    resolveClickSelector pageAyB "a.y b" =
      ("a.y b", some ⟨"a.y b", "exact"⟩) := by
  have h := (classifier_two_predicates pageAyB "a.y b").2
  exact h (by decide) (by decide) (by decide) (by decide)

/-- Counterexample for claim C6: a button with a name attribute but no id
and no class is found by text matching, and the produced selector is the
bare tag name, skipping the name-attribute tier the claim requires. -/
theorem text_match_selector_priority_cex :
    discoverBestSelector pageGoButton "go" = some ⟨"button", "text-match"⟩ ∧
    goButton.name = "go" ∧
    goButton.id = "" ∧
    specFollowsPriority goButton.id goButton.name goButton.className
      goButton.tag "button" = false := by
  refine ⟨rfl, rfl, rfl, by decide⟩

/-- Claim C6 as amended: the form-inspector suggested selector follows
the priority id, then name attribute, then first class token, then tag
name, exactly; the text-matching selectors follow it only in part:
input hits follow the id, name, class tiers but fall back to an input
type selector instead of the tag name, while button and link hits skip
the name tier entirely, so they follow the priority only when the
element has an id or has no name. -/
theorem selector_priority_amended (r : FormElemReport) (e : Elem) :
    specFollowsPriority r.id r.name r.className r.tagName
      (formSuggestedSelector r) = true ∧
    ((e.id != "" || e.name == "") = true →
      specFollowsPriority e.id e.name e.className e.tag
        (buttonSelector e) = true) ∧
    ((e.id != "" || e.name != "" || e.className != "") = true →
      specFollowsPriority e.id e.name e.className e.tag
        (inputBestSelector e) = true) ∧
    ((e.id != "" || (e.name == "" && (e.className != "" || e.tag == "a"))) = true →
      specFollowsPriority e.id e.name e.className e.tag
        (linkSelector e) = true) := by
  refine ⟨?_, ?_, ?_, ?_⟩
  · cases hid : r.id != "" <;> cases hn : r.name != "" <;>
      cases hc : r.className != "" <;>
      simp [formSuggestedSelector, specFollowsPriority, usesIdSelector,
        usesNameSelector, usesClassSelector, usesTagSelector, hid, hn, hc]
  · intro h
    cases hid : e.id != "" <;> cases hn : e.name != "" <;>
      cases hc : e.className != "" <;>
      simp_all [buttonSelector, specFollowsPriority, usesIdSelector,
        usesNameSelector, usesClassSelector, usesTagSelector, bne]
  · intro h
    cases hid : e.id != "" <;> cases hn : e.name != "" <;>
      cases hc : e.className != "" <;>
      simp_all [inputBestSelector, specFollowsPriority, usesIdSelector,
        usesNameSelector, usesClassSelector, usesTagSelector, bne]
  · intro h
    cases hid : e.id != "" <;> cases hn : e.name != "" <;>
      cases hc : e.className != "" <;>
      simp_all [linkSelector, specFollowsPriority, usesIdSelector,
        usesNameSelector, usesClassSelector, usesTagSelector, bne]

theorem selector_priority_amended_witness :
    specFollowsPriority plainButton.id plainButton.name plainButton.className
      plainButton.tag (buttonSelector plainButton) = true :=
  (selector_priority_amended (formElemReport goButton) plainButton).2.1
    (by decide)

theorem jsRound_eq (q : ℚ) (z : ℤ) (h1 : (z : ℚ) ≤ q + 1 / 2)
    (h2 : q + 1 / 2 < z + 1) : jsRound q = z := by
  unfold jsRound
  exact Int.floor_eq_iff.mpr ⟨h1, h2⟩

/-- Counterexample for claim C7: on a non-parallelogram quad with corner
x coordinates 0, 10, 2, 4 the content-quad method returns x equal to 1,
the rounded midpoint of the first and third corners, while the rounded
average of the four corner x coordinates is 4. -/
theorem quad_center_four_corner_cex :
    getElementCoordinates coordEnvSkew =
      ⟨true, some (1, 4), "DOM.getContentQuads"⟩ ∧
    jsRound ((quadSkew.x1 + quadSkew.x2 + quadSkew.x3 + quadSkew.x4) / 4) = 4 ∧
    (1 : ℤ) ≠ 4 := by
  have hx : jsRound ((quadSkew.x1 + quadSkew.x3) / 2) = 1 :=
    jsRound_eq _ 1 (by norm_num [quadSkew]) (by norm_num [quadSkew])
  have hy : jsRound ((quadSkew.y1 + quadSkew.y3) / 2) = 4 :=
    jsRound_eq _ 4 (by norm_num [quadSkew]) (by norm_num [quadSkew])
  have h4 : jsRound ((quadSkew.x1 + quadSkew.x2 + quadSkew.x3 + quadSkew.x4) / 4) = 4 :=
    jsRound_eq _ 4 (by norm_num [quadSkew]) (by norm_num [quadSkew])
  refine ⟨?_, h4, by decide⟩
  show getElementCoordinates coordEnvSkew = _
  unfold getElementCoordinates coordEnvSkew
  rw [show ([quadSkew] : List Quad) = quadSkew :: [] from rfl]
  simp only [hx, hy]
  rfl

/-- Claim C7 as amended: whenever the content-quad method succeeds, the
returned coordinate is the rounded midpoint of the first and third
corners of the first quad, which coincides with the rounded four-corner
average exactly when the quad is a parallelogram. -/
theorem quad_center_first_third_midpoint (env : CoordEnv) (q : Quad)
    (rest : List Quad)
    (hdom : env.domAvailable = true) (hnode : env.nodeFound = true)
    (hq : env.quads = q :: rest) :
    getElementCoordinates env =
      ⟨true, some (jsRound ((q.x1 + q.x3) / 2), jsRound ((q.y1 + q.y3) / 2)),
       "DOM.getContentQuads"⟩ ∧
    (q.x1 + q.x3 = q.x2 + q.x4 →
      jsRound ((q.x1 + q.x3) / 2) =
        jsRound ((q.x1 + q.x2 + q.x3 + q.x4) / 4)) ∧
    (q.y1 + q.y3 = q.y2 + q.y4 →
      jsRound ((q.y1 + q.y3) / 2) =
        jsRound ((q.y1 + q.y2 + q.y3 + q.y4) / 4)) := by
  refine ⟨?_, ?_, ?_⟩
  · unfold getElementCoordinates
    rw [hdom, hnode, hq]
    rfl
  · intro h
    congr 1
    linear_combination h / 4
  · intro h
    congr 1
    linear_combination h / 4

theorem quad_center_first_third_midpoint_witness :
    getElementCoordinates coordEnvPar =
      ⟨true, some (5, 4), "DOM.getContentQuads"⟩ ∧
    jsRound ((quadPar.x1 + quadPar.x3) / 2) =
      jsRound ((quadPar.x1 + quadPar.x2 + quadPar.x3 + quadPar.x4) / 4) := by
  have h := quad_center_first_third_midpoint coordEnvPar quadPar [] rfl rfl rfl
  have hx : jsRound ((quadPar.x1 + quadPar.x3) / 2) = 5 :=
    jsRound_eq _ 5 (by norm_num [quadPar]) (by norm_num [quadPar])
  have hy : jsRound ((quadPar.y1 + quadPar.y3) / 2) = 4 :=
    jsRound_eq _ 4 (by norm_num [quadPar]) (by norm_num [quadPar])
  refine ⟨?_, h.2.1 (by norm_num [quadPar])⟩
  rw [h.1, hx, hy]

/-- Claim C8: the claim states that text entry with clear false appends
the typed text to the original value; on the JavaScript fallback path
the script assigns the typed text to the value property outright, so
with original value abc, typed text xyz and clear false the final value
is xyz and not abcxyz, while under the default clearing behaviour the
final value is the typed text as expected. -/
theorem type_clear_false_fallback_replaces :
    typeTextFinalValue false 0 false "abc" "xyz" = "xyz" ∧
    "xyz" ≠ "abc" ++ "xyz" ∧
    typeTextFinalValue false 0 true "abc" "xyz" = "xyz" ∧
    typeTextFinalValue true 0 true "abc" "xyz" = "xyz" := by
  refine ⟨rfl, by decide, rfl, by decide⟩

/-- Counterexample for claim C9: with a form selector that matches
nothing, the internal analysis returns null without throwing, but the
public analyzeForm operation converts that null into a thrown error
instead of returning a null result to its caller. -/
theorem analyze_form_throws_on_missing_cex :
    analyzeFormInternal noForms "form" = none ∧
    analyzeForm noForms "form" = .error (.formNotFound "form") :=
  ⟨rfl, rfl⟩

/-- Claim C9 as amended: when the form selector matches nothing,
analyzeFormInternal returns null to its caller without throwing; the
public analyzeForm wrapper instead throws a form-not-found error, which
the analyze_form tool handler catches and converts into a structured
failure result, so the tool caller receives a not-found result rather
than an unhandled exception. -/
theorem analyze_form_notfound_amended (forms : Forms) (sel : String)
    (h : forms sel = none) :
    analyzeFormInternal forms sel = none ∧
    analyzeForm forms sel = .error (.formNotFound sel) ∧
    handleAnalyzeFormTool forms sel =
      ⟨false, some (.formNotFound sel), []⟩ := by
  have h1 : analyzeFormInternal forms sel = none := by
    unfold analyzeFormInternal
    rw [h]
  have h2 : analyzeForm forms sel = .error (.formNotFound sel) := by
    unfold analyzeForm
    rw [h1]
  refine ⟨h1, h2, ?_⟩
  unfold handleAnalyzeFormTool
  rw [h2]

theorem analyze_form_notfound_amended_witness :
    handleAnalyzeFormTool noForms "form" =
      ⟨false, some (.formNotFound "form"), []⟩ :=
  (analyze_form_notfound_amended noForms "form" rfl).2.2
